import Mathlib

set_option maxRecDepth 8192

/-!
Verification development for the appointment scheduling core of the
repository.  Two implementations are embedded:

* `Gem` — the DynamoDB-backed booking microservice
  (`Needium-Gem-Health-App/needium-booking-health-service-gem.py`):
  `BookingService.create_appointment`, its conflict check over the
  `doctor_id-start_time-index` query window, the item
  serialization/deserialization pair, and
  `BookingService.update_appointment_status`.

* `GCP` — the in-memory appointment service
  (`Needium-GCP-Gem-Health-App/needium-pat-appt-service-gcp-gem.py`):
  `create_appointment` with its exact-timestamp availability check,
  `update_appointment`, and the `DoctorAvailability`/`TimeSlot` data model.

Timestamps are modelled as natural numbers (seconds); the source compares
`datetime` values and their ISO-8601 renderings, both of which order exactly
as the underlying instants do.  `timedelta(days=1)` becomes `oneDay`.
-/

instance {ε α : Type} [DecidableEq ε] [DecidableEq α] : DecidableEq (Except ε α) := fun x y =>
  match x, y with
  | Except.ok a, Except.ok b => decidable_of_iff (a = b) (by simp)
  | Except.error e, Except.error f => decidable_of_iff (e = f) (by simp)
  | Except.ok _, Except.error _ => isFalse fun h => Except.noConfusion h
  | Except.error _, Except.ok _ => isFalse fun h => Except.noConfusion h

namespace Gem

/-- One day, the amount `create_appointment` adds to the requested end time
when it builds the `end_date` bound of its availability query
(`end_date=(appointment_data.end_time + timedelta(days=1)).isoformat()`). -/
def oneDay : Nat := 86400

/-- The `AppointmentStatus` enum of the booking service. -/
inductive AppointmentStatus where
  | pending
  | confirmed
  | cancelled
  | completed
  | noShow
deriving DecidableEq, Repr

/-- The `AppointmentType` enum of the booking service. -/
inductive AppointmentType where
  | consultation
  | followUp
  | telemedicine
  | labWork
deriving DecidableEq, Repr

/-- The `AppointmentResponse` pydantic model: the parsed form of a stored
appointment row. -/
structure AppointmentResponse where
  appointment_id : String
  patient_id : String
  doctor_id : String
  start_time : Nat
  end_time : Nat
  appointment_type : AppointmentType
  status : AppointmentStatus
  notes : Option String
  created_at : Nat
  updated_at : Nat
deriving DecidableEq, Repr

/-- The `AppointmentCreate` pydantic model.  Note that it imposes no
relation between `start_time` and `end_time`: any pair of timestamps is
accepted by the model. -/
structure AppointmentCreate where
  patient_id : String
  doctor_id : String
  start_time : Nat
  end_time : Nat
  appointment_type : AppointmentType
  notes : Option String
deriving DecidableEq, Repr

/-- Errors `create_appointment` can raise: the HTTP 409 conflict for an
unavailable doctor, and the HTTP 409 raised when the
`attribute_not_exists(appointment_id)` condition of `put_item` fails. -/
inductive BookingError where
  | conflict409
  | idConflict409
deriving DecidableEq, Repr

/-- Error `update_appointment_status` can raise (HTTP 404). -/
inductive UpdateError where
  | notFound404
deriving DecidableEq, Repr

/-- The `get_appointments_by_doctor` query with both bounds set: the
`doctor_id-start_time-index` GSI returns rows with the given `doctor_id`
whose `start_time` lies BETWEEN `startDate` AND `endDate` (inclusive). -/
def queryWindow (table : List AppointmentResponse) (doctorId : String)
    (startDate endDate : Nat) : List AppointmentResponse :=
  table.filter fun a =>
    a.doctor_id == doctorId && decide (startDate ≤ a.start_time)
      && decide (a.start_time ≤ endDate)

/-- The status filter of the conflict loop:
`existing_app.status not in [CANCELLED, NO_SHOW]`. -/
def isBlocking (a : AppointmentResponse) : Bool :=
  !(a.status == AppointmentStatus.cancelled)
    && !(a.status == AppointmentStatus.noShow)

/-- The overlap test of the conflict loop:
`start_time < existing.end_time and end_time > existing.start_time`. -/
def overlapsReq (r : AppointmentCreate) (a : AppointmentResponse) : Bool :=
  decide (r.start_time < a.end_time) && decide (r.end_time > a.start_time)

/-- The whole read-and-check phase of `create_appointment` (lines 140-155):
query the doctor's appointments with `start_time` in
`[request.start_time, request.end_time + 1 day]` and report whether any
non-cancelled, non-no-show one overlaps the request. -/
def hasConflict (table : List AppointmentResponse) (r : AppointmentCreate) : Bool :=
  (queryWindow table r.doctor_id r.start_time (r.end_time + oneDay)).any
    fun a => isBlocking a && overlapsReq r a

/-- The item built at lines 157-168: a fresh id, the request's fields,
status defaulted to `pending`, `created_at`/`updated_at` both set to the
current time.  `{'S': notes} if appointment_data.notes else {'NULL': True}`
stores `NULL` for a missing or empty (falsy) notes string. -/
def newAppointment (r : AppointmentCreate) (newId : String) (now : Nat) :
    AppointmentResponse :=
  { appointment_id := newId
    patient_id := r.patient_id
    doctor_id := r.doctor_id
    start_time := r.start_time
    end_time := r.end_time
    appointment_type := r.appointment_type
    status := AppointmentStatus.pending
    notes := match r.notes with
      | some s => if s = "" then none else some s
      | none => none
    created_at := now
    updated_at := now }

/-- The write phase of `create_appointment`: `put_item` with
`ConditionExpression="attribute_not_exists(appointment_id)"`; a duplicate id
raises the 409 id conflict, otherwise the item is stored and returned. -/
def putNew (table : List AppointmentResponse) (r : AppointmentCreate)
    (newId : String) (now : Nat) :
    Except BookingError (List AppointmentResponse × AppointmentResponse) :=
  if table.any (fun a => a.appointment_id == newId) then
    Except.error BookingError.idConflict409
  else
    Except.ok (table ++ [newAppointment r newId now], newAppointment r newId now)

/-- `BookingService.create_appointment`: run the conflict check, raise the
409 conflict when it fires, otherwise persist the new pending appointment. -/
def create_appointment (table : List AppointmentResponse) (r : AppointmentCreate)
    (newId : String) (now : Nat) :
    Except BookingError (List AppointmentResponse × AppointmentResponse) :=
  if hasConflict table r then Except.error BookingError.conflict409
  else putNew table r newId now

/-- `get_item` by primary key `appointment_id`. -/
def findAppointment (table : List AppointmentResponse) (apptId : String) :
    Option AppointmentResponse :=
  table.find? fun a => a.appointment_id == apptId

/-- `BookingService.update_appointment_status` (lines 263-302): look the
appointment up by id (404 when absent, per the handler's intent) and
unconditionally SET `status = new_status, updated_at = now`.  No state
machine and no clock is consulted anywhere in the function. -/
def update_appointment_status (table : List AppointmentResponse)
    (apptId : String) (newStatus : AppointmentStatus) (now : Nat) :
    Except UpdateError (List AppointmentResponse × AppointmentResponse) :=
  match findAppointment table apptId with
  | none => Except.error UpdateError.notFound404
  | some a =>
    let a2 := { a with status := newStatus, updated_at := now }
    Except.ok (table.map (fun b => if b.appointment_id == apptId then a2 else b), a2)

/-- Number of blocking (non-cancelled, non-no-show) appointments of a doctor
whose interval contains the instant `t` (half-open): the quantity the spec's
capacity invariant bounds by the covering slot's capacity. -/
def activeOverlapCount (table : List AppointmentResponse) (doctorId : String)
    (t : Nat) : Nat :=
  (table.filter fun a =>
    a.doctor_id == doctorId && isBlocking a
      && decide (a.start_time ≤ t) && decide (t < a.end_time)).length

/-- Serialized processing of a batch of booking requests: each request's
check-then-insert completes before the next begins.  Returns the final table
with the numbers of admitted and rejected requests. -/
def processSerial (table : List AppointmentResponse)
    (reqs : List AppointmentCreate) (newId : String) (now : Nat) :
    List AppointmentResponse × Nat × Nat :=
  match reqs with
  | [] => (table, 0, 0)
  | r :: rest =>
    match create_appointment table r newId now with
    | Except.ok (t2, _) =>
      let out := processSerial t2 rest newId now
      (out.1, out.2.1 + 1, out.2.2)
    | Except.error _ =>
      let out := processSerial table rest newId now
      (out.1, out.2.1, out.2.2 + 1)

end Gem

/-- Model of `datetime.isoformat`'s digit rendering: timestamps are epoch
naturals and the stored string is their decimal rendering; together with
`fromisoformat` below this mirrors the exact inverse pair
`datetime.fromisoformat(x.isoformat()) == x` of the standard library. -/
def digitChar (d : Nat) : Char := Char.ofNat (48 + d)

def isoformat (n : Nat) : String :=
  if n = 0 then "0" else String.mk (((Nat.digits 10 n).map digitChar).reverse)

def isDigitChar (c : Char) : Bool := decide (48 ≤ c.toNat) && decide (c.toNat ≤ 57)

/-- Model of `datetime.fromisoformat`: parses the decimal rendering back,
failing (the source raises `ValueError`) on anything else. -/
def fromisoformat (s : String) : Option Nat :=
  if !s.data.isEmpty && s.data.all isDigitChar then
    some (Nat.ofDigits 10 ((s.data.map fun c => c.toNat - 48).reverse))
  else none

namespace Gem

/-- The serialized value of an `AppointmentStatus`
(`AppointmentStatus.XXX.value` in the source). -/
def statusValue : AppointmentStatus → String
  | AppointmentStatus.pending => "pending"
  | AppointmentStatus.confirmed => "confirmed"
  | AppointmentStatus.cancelled => "cancelled"
  | AppointmentStatus.completed => "completed"
  | AppointmentStatus.noShow => "no_show"

/-- The `AppointmentStatus(value)` enum constructor: fails with `ValueError`
on a string that is not a member. -/
def parseStatus (s : String) : Option AppointmentStatus :=
  if s = "pending" then some AppointmentStatus.pending
  else if s = "confirmed" then some AppointmentStatus.confirmed
  else if s = "cancelled" then some AppointmentStatus.cancelled
  else if s = "completed" then some AppointmentStatus.completed
  else if s = "no_show" then some AppointmentStatus.noShow
  else none

/-- The serialized value of an `AppointmentType`. -/
def typeValue : AppointmentType → String
  | AppointmentType.consultation => "consultation"
  | AppointmentType.followUp => "follow_up"
  | AppointmentType.telemedicine => "telemedicine"
  | AppointmentType.labWork => "lab_work"

/-- The `AppointmentType(value)` enum constructor. -/
def parseType (s : String) : Option AppointmentType :=
  if s = "consultation" then some AppointmentType.consultation
  else if s = "follow_up" then some AppointmentType.followUp
  else if s = "telemedicine" then some AppointmentType.telemedicine
  else if s = "lab_work" then some AppointmentType.labWork
  else none

/-- A DynamoDB row of the `NINCAppointments` table: every attribute is the
string payload of its `{'S': ...}` cell; `notes := none` models the
`{'NULL': True}` cell. -/
structure DynamoItem where
  appointment_id : String
  patient_id : String
  doctor_id : String
  start_time : String
  end_time : String
  appointment_type : String
  status : String
  notes : Option String
  created_at : String
  updated_at : String
deriving DecidableEq, Repr

/-- The `item` dictionary built by `create_appointment` (lines 157-168),
applied to the appointment it persists: timestamps via `isoformat`, enums
via `.value`, and notes stored as `NULL` when falsy (absent or empty). -/
def itemOfResponse (a : AppointmentResponse) : DynamoItem :=
  { appointment_id := a.appointment_id
    patient_id := a.patient_id
    doctor_id := a.doctor_id
    start_time := isoformat a.start_time
    end_time := isoformat a.end_time
    appointment_type := typeValue a.appointment_type
    status := statusValue a.status
    notes := match a.notes with
      | some s => if s = "" then none else some s
      | none => none
    created_at := isoformat a.created_at
    updated_at := isoformat a.updated_at }

/-- `BookingService._dynamodb_item_to_appointment_response`: parse the
stored strings back; any parse failure raises in the source, so the model
returns `none`. -/
def itemToResponse (it : DynamoItem) : Option AppointmentResponse := do
  let st ← fromisoformat it.start_time
  let en ← fromisoformat it.end_time
  let ty ← parseType it.appointment_type
  let sta ← parseStatus it.status
  let ca ← fromisoformat it.created_at
  let ua ← fromisoformat it.updated_at
  some
    { appointment_id := it.appointment_id
      patient_id := it.patient_id
      doctor_id := it.doctor_id
      start_time := st
      end_time := en
      appointment_type := ty
      status := sta
      notes := it.notes
      created_at := ca
      updated_at := ua }

end Gem

namespace GCP

/-- The `TimeSlot` pydantic model of the GCP appointment service: again no
constraint ties `end_time` to `start_time`. -/
structure TimeSlot where
  start_time : Nat
  end_time : Nat
deriving DecidableEq, Repr

/-- The `DoctorAvailability` pydantic model. -/
structure DoctorAvailability where
  doctor_id : String
  date : String
  available_slots : List TimeSlot
deriving DecidableEq, Repr

/-- The `Appointment` pydantic model of the GCP service: a single
`appointment_time` instant, a free-form `status` string. -/
structure Appointment where
  id : String
  patient_id : String
  doctor_id : String
  appointment_time : Nat
  reason_for_visit : String
  status : String
  created_at : Nat
  updated_at : Nat
deriving DecidableEq, Repr

/-- The `AppointmentCreate` pydantic model. -/
structure AppointmentCreate where
  patient_id : String
  doctor_id : String
  appointment_time : Nat
  reason_for_visit : String
deriving DecidableEq, Repr

/-- The `AppointmentUpdate` pydantic model (lines 422-426): the only
declared fields are the optional `status` and `reason_for_visit`; an update
payload cannot carry a `patient_id`, `doctor_id` or `appointment_time`. -/
structure AppointmentUpdate where
  status : Option String
  reason_for_visit : Option String
deriving DecidableEq, Repr

/-- The HTTP errors of the GCP appointment service handlers. -/
inductive ApiError where
  | badRequest400
  | conflict409
  | notFound404
deriving DecidableEq, Repr

/-- The GCP `create_appointment` handler (lines 267-305): 400 when the
doctor has no record in `doctor_availability_db` at all, 409 when some
existing appointment of the doctor sits at the exact requested timestamp,
otherwise a new appointment with status `"scheduled"` is stored.  The
published `available_slots` are never consulted. -/
def create_appointment (availDb : List (String × DoctorAvailability))
    (apptsDb : List (String × Appointment)) (r : AppointmentCreate)
    (newId : String) (now : Nat) :
    Except ApiError (List (String × Appointment) × Appointment) :=
  if (availDb.lookup r.doctor_id).isNone then Except.error ApiError.badRequest400
  else if apptsDb.any (fun p =>
      p.2.doctor_id == r.doctor_id && p.2.appointment_time == r.appointment_time) then
    Except.error ApiError.conflict409
  else
    let a : Appointment :=
      { id := newId
        patient_id := r.patient_id
        doctor_id := r.doctor_id
        appointment_time := r.appointment_time
        reason_for_visit := r.reason_for_visit
        status := "scheduled"
        created_at := now
        updated_at := now }
    Except.ok ((newId, a) :: apptsDb, a)

/-- Whether some published slot of the availability record covers the
instant `t` (half-open).  This is the coverage notion of the spec's
`find_covering_slots`; the GCP handler never computes it. -/
def coveredBySlot (av : DoctorAvailability) (t : Nat) : Bool :=
  av.available_slots.any fun s => decide (s.start_time ≤ t) && decide (t < s.end_time)

/-- The `setattr` loop of `update_appointment` over the payload's set
fields, in the model's declaration order: `status`, then
`reason_for_visit`. -/
def applyUpdate (a : Appointment) (u : AppointmentUpdate) : Appointment :=
  let a1 := match u.status with
    | some s => { a with status := s }
    | none => a
  match u.reason_for_visit with
  | some rv => { a1 with reason_for_visit := rv }
  | none => a1

/-- The GCP `update_appointment` handler (lines 332-357): 404 when the id is
unknown; the guards of lines 346-349 compare `appointment_update.patient_id`
and `.doctor_id`, attributes the `AppointmentUpdate` model does not declare,
so a payload can never carry a different id and those 400 branches cannot
fire; then the set fields are applied and `updated_at` is refreshed. -/
def update_appointment (db : List (String × Appointment)) (apptId : String)
    (u : AppointmentUpdate) (now : Nat) :
    Except ApiError (List (String × Appointment) × Appointment) :=
  match db.lookup apptId with
  | none => Except.error ApiError.notFound404
  | some a =>
    let a2 := { applyUpdate a u with updated_at := now }
    Except.ok (db.map (fun p => if p.1 == apptId then (p.1, a2) else p), a2)

end GCP

/-- Success observable for handler results. -/
def exceptOk {ε α : Type} (x : Except ε α) : Bool :=
  match x with
  | Except.ok _ => true
  | Except.error _ => false

/-!  Theorems.  Helper lemmas come first, then one theorem (plus witness or
counterexample) per claim. -/

theorem digitChar_digit : ∀ d, d < 10 →
    isDigitChar (digitChar d) = true ∧ (digitChar d).toNat - 48 = d := by decide

theorem fromisoformat_isoformat (n : Nat) : fromisoformat (isoformat n) = some n := by
  rcases eq_or_ne n 0 with h | h
  · subst h; decide
  · have hd : ∀ d ∈ Nat.digits 10 n, d < 10 := fun d hdm =>
      Nat.digits_lt_base (by norm_num) hdm
    have hne : Nat.digits 10 n ≠ [] := Nat.digits_ne_nil_iff_ne_zero.mpr h
    unfold isoformat fromisoformat
    rw [if_neg h]
    have hdata : (String.mk (((Nat.digits 10 n).map digitChar).reverse)).data
        = ((Nat.digits 10 n).map digitChar).reverse := rfl
    rw [hdata]
    have hne2 : (((Nat.digits 10 n).map digitChar).reverse) ≠ [] := by
      simp [hne]
    have hemp : (((Nat.digits 10 n).map digitChar).reverse).isEmpty = false := by
      cases hl : ((Nat.digits 10 n).map digitChar).reverse with
      | nil => exact absurd hl hne2
      | cons c t => rfl
    have hall : (((Nat.digits 10 n).map digitChar).reverse).all isDigitChar = true := by
      rw [List.all_eq_true]
      intro c hc
      rw [List.mem_reverse, List.mem_map] at hc
      obtain ⟨d, hdm, rfl⟩ := hc
      exact (digitChar_digit d (hd d hdm)).1
    rw [if_pos (by rw [hemp, hall]; rfl)]
    congr 1
    have hmap :
        (((Nat.digits 10 n).map digitChar).reverse.map fun c => c.toNat - 48).reverse
          = Nat.digits 10 n := by
      rw [← List.map_reverse, List.reverse_reverse, List.map_map]
      have hcongr : ∀ d ∈ Nat.digits 10 n,
          ((fun c => c.toNat - 48) ∘ digitChar) d = id d := by
        intro d hdm
        exact (digitChar_digit d (hd d hdm)).2
      rw [List.map_congr_left hcongr, List.map_id]
    rw [hmap, Nat.ofDigits_digits]

theorem create_eq_conflict_iff (t : List Gem.AppointmentResponse)
    (r : Gem.AppointmentCreate) (newId : String) (now : Nat) :
    Gem.create_appointment t r newId now = Except.error Gem.BookingError.conflict409 ↔
      Gem.hasConflict t r = true := by
  unfold Gem.create_appointment
  constructor
  · intro hc
    by_cases hb : Gem.hasConflict t r = true
    · exact hb
    · rw [if_neg hb] at hc
      unfold Gem.putNew at hc
      split at hc
      · exact absurd (Except.error.inj hc) (by decide)
      · exact Except.noConfusion hc
  · intro hb
    rw [if_pos hb]

theorem hasConflict_iff (t : List Gem.AppointmentResponse) (r : Gem.AppointmentCreate) :
    Gem.hasConflict t r = true ↔
      ∃ a ∈ t, a.doctor_id = r.doctor_id ∧
        a.status ≠ Gem.AppointmentStatus.cancelled ∧
        a.status ≠ Gem.AppointmentStatus.noShow ∧
        r.start_time ≤ a.start_time ∧ a.start_time ≤ r.end_time + Gem.oneDay ∧
        r.start_time < a.end_time ∧ a.start_time < r.end_time := by
  unfold Gem.hasConflict Gem.queryWindow Gem.isBlocking Gem.overlapsReq
  rw [List.any_eq_true]
  constructor
  · rintro ⟨a, ha, hcond⟩
    rw [List.mem_filter] at ha
    obtain ⟨hmem, hf⟩ := ha
    simp only [Bool.and_eq_true, beq_iff_eq, decide_eq_true_eq, Bool.not_eq_true',
      beq_eq_false_iff_ne, ne_eq] at hf hcond
    exact ⟨a, hmem, hf.1.1, hcond.1.1, hcond.1.2, hf.1.2, hf.2, hcond.2.1, hcond.2.2⟩
  · rintro ⟨a, hmem, hdoc, hc1, hc2, hw1, hw2, ho1, ho2⟩
    refine ⟨a, ?_, ?_⟩
    · rw [List.mem_filter]
      refine ⟨hmem, ?_⟩
      simp only [Bool.and_eq_true, beq_iff_eq, decide_eq_true_eq]
      exact ⟨⟨hdoc, hw1⟩, hw2⟩
    · simp only [Bool.and_eq_true, Bool.not_eq_true', beq_eq_false_iff_ne, ne_eq,
        decide_eq_true_eq]
      exact ⟨⟨hc1, hc2⟩, ho1, ho2⟩

/-- C2 (amended): under the Gem booking service, a request is rejected as a
409 conflict iff some existing appointment of the doctor is blocking (not
cancelled, not no-show), has its `start_time` inside the query window
(no earlier than the requested start and at most one day past the requested
end), and overlaps the request half-open; overlapping appointments that
start before the requested start are outside the query window and never
cause rejection, and adjacent intervals sharing only a boundary instant
never conflict. -/
theorem c2_conflict_iff_windowed_overlap (t : List Gem.AppointmentResponse)
    (r : Gem.AppointmentCreate) (newId : String) (now : Nat) :
    Gem.create_appointment t r newId now = Except.error Gem.BookingError.conflict409 ↔
      ∃ a ∈ t, a.doctor_id = r.doctor_id ∧
        a.status ≠ Gem.AppointmentStatus.cancelled ∧
        a.status ≠ Gem.AppointmentStatus.noShow ∧
        r.start_time ≤ a.start_time ∧ a.start_time ≤ r.end_time + Gem.oneDay ∧
        r.start_time < a.end_time ∧ a.start_time < r.end_time :=
  (create_eq_conflict_iff t r newId now).trans (hasConflict_iff t r)

/-- C2 counterexample: an existing pending appointment for doctor `d` over
the interval 100..300 overlaps the requested interval 200..250 (half-open),
yet the request is admitted, because the availability query only returns
appointments whose `start_time` is at least the requested start.  The claim
says an overlapping blocking appointment always yields a `SlotFull`
rejection. -/
theorem c2_missed_overlap_admitted :
    Gem.overlapsReq ⟨"p1", "d", 200, 250, Gem.AppointmentType.consultation, none⟩
      ⟨"a0", "p0", "d", 100, 300, Gem.AppointmentType.consultation,
        Gem.AppointmentStatus.pending, none, 0, 0⟩ = true ∧
    Gem.isBlocking
      ⟨"a0", "p0", "d", 100, 300, Gem.AppointmentType.consultation,
        Gem.AppointmentStatus.pending, none, 0, 0⟩ = true ∧
    exceptOk (Gem.create_appointment
      [⟨"a0", "p0", "d", 100, 300, Gem.AppointmentType.consultation,
        Gem.AppointmentStatus.pending, none, 0, 0⟩]
      ⟨"p1", "d", 200, 250, Gem.AppointmentType.consultation, none⟩ "a1" 5) = true := by
  decide

/-- C3 (amended): only `Cancelled` and `NoShow` appointments are ignored by
the conflict check — an existing appointment in either of those statuses
never causes a rejection; but `Completed` appointments, although terminal,
still count as blocking. -/
theorem c3_cancelled_noshow_never_reject (t : List Gem.AppointmentResponse)
    (r : Gem.AppointmentCreate) (newId : String) (now : Nat)
    (h : ∀ a ∈ t, a.status = Gem.AppointmentStatus.cancelled ∨
      a.status = Gem.AppointmentStatus.noShow) :
    Gem.create_appointment t r newId now ≠ Except.error Gem.BookingError.conflict409 := by
  rw [Ne, create_eq_conflict_iff, hasConflict_iff]
  rintro ⟨a, hmem, -, hc1, hc2, -⟩
  rcases h a hmem with h1 | h1
  · exact hc1 h1
  · exact hc2 h1

/-- C3 witness: a cancelled appointment fully covering the requested
interval does not block the request. -/
theorem c3_cancelled_noshow_never_reject_witness :
    Gem.create_appointment
      [⟨"a0", "p0", "d", 100, 300, Gem.AppointmentType.consultation,
        Gem.AppointmentStatus.cancelled, none, 0, 0⟩]
      ⟨"p1", "d", 100, 200, Gem.AppointmentType.consultation, none⟩ "a1" 5
      ≠ Except.error Gem.BookingError.conflict409 :=
  c3_cancelled_noshow_never_reject
    [⟨"a0", "p0", "d", 100, 300, Gem.AppointmentType.consultation,
      Gem.AppointmentStatus.cancelled, none, 0, 0⟩]
    ⟨"p1", "d", 100, 200, Gem.AppointmentType.consultation, none⟩ "a1" 5 (by decide)

/-- C3 counterexample: a `Completed` appointment — a terminal status — over
100..300 causes the overlapping request 100..200 to be rejected, although
the claim says a terminal-status appointment never causes rejection. -/
theorem c3_completed_blocks_request :
    (Gem.AppointmentStatus.completed ≠ Gem.AppointmentStatus.pending ∧
      Gem.AppointmentStatus.completed ≠ Gem.AppointmentStatus.confirmed) ∧
    Gem.create_appointment
      [⟨"a0", "p0", "d", 100, 300, Gem.AppointmentType.consultation,
        Gem.AppointmentStatus.completed, none, 0, 0⟩]
      ⟨"p1", "d", 100, 200, Gem.AppointmentType.consultation, none⟩ "a1" 5
      = Except.error Gem.BookingError.conflict409 := by
  decide

/-- C4 (amended): the GCP appointment service rejects a booking with its
400 availability error iff the doctor has no record at all in
`doctor_availability_db`; the published `available_slots` are never
consulted, so a request whose time is covered by no slot is still admitted
whenever the doctor has an availability record and the exact timestamp is
untaken. -/
theorem c4_availability_error_iff_no_record
    (availDb : List (String × GCP.DoctorAvailability))
    (apptsDb : List (String × GCP.Appointment)) (r : GCP.AppointmentCreate)
    (newId : String) (now : Nat) :
    GCP.create_appointment availDb apptsDb r newId now
        = Except.error GCP.ApiError.badRequest400 ↔
      availDb.lookup r.doctor_id = none := by
  unfold GCP.create_appointment
  constructor
  · intro hc
    by_cases hl : availDb.lookup r.doctor_id = none
    · exact hl
    · exfalso
      rw [if_neg (by simp [hl])] at hc
      split at hc
      · exact absurd (Except.error.inj hc) (by decide)
      · exact Except.noConfusion hc
  · intro hl
    rw [if_pos (by simp [hl])]

/-- C4 counterexample: doctor `d` has published availability, but none of
the slots covers instant 1100; the claim says such a request must be
rejected with `NoAvailability`, yet the service admits it. -/
theorem c4_uncovered_time_admitted :
    GCP.coveredBySlot ⟨"d", "2025-07-01", [⟨900, 930⟩]⟩ 1100 = false ∧
    exceptOk (GCP.create_appointment [("d", ⟨"d", "2025-07-01", [⟨900, 930⟩]⟩)] []
      ⟨"p1", "d", 1100, "routine checkup"⟩ "a1" 0) = true := by
  decide

/-- C5 (amended): `update_appointment_status` performs no state-machine
validation at all: every requested status is applied unconditionally to any
existing appointment (only a missing appointment id fails, with 404), the
status and `updated_at` are overwritten and every other field is kept; in
particular cancelling an already-cancelled appointment succeeds. -/
theorem c5_status_update_unvalidated (t : List Gem.AppointmentResponse)
    (apptId : String) (st : Gem.AppointmentStatus) (now : Nat)
    (a : Gem.AppointmentResponse) (h : Gem.findAppointment t apptId = some a) :
    ∃ t2 b, Gem.update_appointment_status t apptId st now = Except.ok (t2, b) ∧
      b.status = st ∧ b.updated_at = now ∧ b.appointment_id = a.appointment_id ∧
      b.patient_id = a.patient_id ∧ b.doctor_id = a.doctor_id ∧
      b.start_time = a.start_time ∧ b.end_time = a.end_time := by
  unfold Gem.update_appointment_status
  rw [h]
  exact ⟨_, _, rfl, rfl, rfl, rfl, rfl, rfl, rfl, rfl⟩

/-- C5 witness: the illegal (per the spec's state machine) transition
Cancelled to Confirmed is applied without complaint. -/
theorem c5_status_update_unvalidated_witness :
    ∃ t2 b, Gem.update_appointment_status
        [⟨"a0", "p0", "d", 100, 200, Gem.AppointmentType.consultation,
          Gem.AppointmentStatus.cancelled, none, 0, 0⟩] "a0"
        Gem.AppointmentStatus.confirmed 9 = Except.ok (t2, b) ∧
      b.status = Gem.AppointmentStatus.confirmed ∧ b.updated_at = 9 ∧
      b.appointment_id = "a0" ∧ b.patient_id = "p0" ∧ b.doctor_id = "d" ∧
      b.start_time = 100 ∧ b.end_time = 200 :=
  c5_status_update_unvalidated
    [⟨"a0", "p0", "d", 100, 200, Gem.AppointmentType.consultation,
      Gem.AppointmentStatus.cancelled, none, 0, 0⟩] "a0"
    Gem.AppointmentStatus.confirmed 9
    ⟨"a0", "p0", "d", 100, 200, Gem.AppointmentType.consultation,
      Gem.AppointmentStatus.cancelled, none, 0, 0⟩ (by decide)

/-- C5 counterexample: cancelling an already-cancelled appointment returns
success (mutating `updated_at` from 0 to 9), not `IllegalTransition` with
the state unchanged as the claim requires. -/
theorem c5_cancel_cancelled_succeeds :
    Gem.update_appointment_status
      [⟨"a0", "p0", "d", 100, 200, Gem.AppointmentType.consultation,
        Gem.AppointmentStatus.cancelled, none, 0, 0⟩] "a0"
      Gem.AppointmentStatus.cancelled 9
      = Except.ok
          ([⟨"a0", "p0", "d", 100, 200, Gem.AppointmentType.consultation,
            Gem.AppointmentStatus.cancelled, none, 0, 9⟩],
           ⟨"a0", "p0", "d", 100, 200, Gem.AppointmentType.consultation,
            Gem.AppointmentStatus.cancelled, none, 0, 9⟩) := by
  decide

/-- C6 (amended): no time gate exists — `update_appointment_status` never
consults the clock, so a `Confirmed` appointment whose `interval.end` is
still in the future is transitioned to `Completed` successfully. -/
theorem c6_no_time_gate (t : List Gem.AppointmentResponse) (apptId : String)
    (now : Nat) (a : Gem.AppointmentResponse)
    (h : Gem.findAppointment t apptId = some a)
    (_hconf : a.status = Gem.AppointmentStatus.confirmed)
    (_hfuture : now < a.end_time) :
    ∃ t2 b, Gem.update_appointment_status t apptId Gem.AppointmentStatus.completed now
        = Except.ok (t2, b) ∧ b.status = Gem.AppointmentStatus.completed ∧
      b.updated_at = now := by
  unfold Gem.update_appointment_status
  rw [h]
  exact ⟨_, _, rfl, rfl, rfl⟩

/-- C6 witness: completing a confirmed appointment at time 500, before its
end time 1000, succeeds. -/
theorem c6_no_time_gate_witness :
    ∃ t2 b, Gem.update_appointment_status
        [⟨"a0", "p0", "d", 900, 1000, Gem.AppointmentType.consultation,
          Gem.AppointmentStatus.confirmed, none, 0, 0⟩] "a0"
        Gem.AppointmentStatus.completed 500 = Except.ok (t2, b) ∧
      b.status = Gem.AppointmentStatus.completed ∧ b.updated_at = 500 :=
  c6_no_time_gate
    [⟨"a0", "p0", "d", 900, 1000, Gem.AppointmentType.consultation,
      Gem.AppointmentStatus.confirmed, none, 0, 0⟩] "a0" 500
    ⟨"a0", "p0", "d", 900, 1000, Gem.AppointmentType.consultation,
      Gem.AppointmentStatus.confirmed, none, 0, 0⟩ (by decide) rfl (by decide)

/-- C6 counterexample: marking a confirmed appointment completed at time
500, while its `interval.end` is 1000, returns success instead of the
`TimeConstraintViolated` rejection the claim requires. -/
theorem c6_complete_before_end_succeeds :
    500 < 1000 ∧
    Gem.update_appointment_status
      [⟨"a0", "p0", "d", 900, 1000, Gem.AppointmentType.consultation,
        Gem.AppointmentStatus.confirmed, none, 0, 0⟩] "a0"
      Gem.AppointmentStatus.completed 500
      = Except.ok
          ([⟨"a0", "p0", "d", 900, 1000, Gem.AppointmentType.consultation,
            Gem.AppointmentStatus.completed, none, 0, 500⟩],
           ⟨"a0", "p0", "d", 900, 1000, Gem.AppointmentType.consultation,
            Gem.AppointmentStatus.completed, none, 0, 500⟩) := by
  decide

/-- C7 (confirmed): every appointment admitted by `create_appointment` is
created in the `Pending` status with `created_at` and `updated_at` both set
to the creation time. -/
theorem c7_created_pending (t : List Gem.AppointmentResponse)
    (r : Gem.AppointmentCreate) (newId : String) (now : Nat)
    (t2 : List Gem.AppointmentResponse) (b : Gem.AppointmentResponse)
    (h : Gem.create_appointment t r newId now = Except.ok (t2, b)) :
    b.status = Gem.AppointmentStatus.pending ∧ b.created_at = now ∧
      b.updated_at = now := by
  unfold Gem.create_appointment Gem.putNew at h
  split at h
  · exact Except.noConfusion h
  · split at h
    · exact Except.noConfusion h
    · have h2 := congrArg Prod.snd (Except.ok.inj h)
      subst h2
      exact ⟨rfl, rfl, rfl⟩

/-- C7 witness: a concrete admission on the empty table produces a pending
appointment timestamped with the creation time 42. -/
theorem c7_created_pending_witness :
    (Gem.newAppointment ⟨"p1", "d", 100, 200, Gem.AppointmentType.consultation, none⟩
      "a1" 42).status = Gem.AppointmentStatus.pending ∧
    (Gem.newAppointment ⟨"p1", "d", 100, 200, Gem.AppointmentType.consultation, none⟩
      "a1" 42).created_at = 42 ∧
    (Gem.newAppointment ⟨"p1", "d", 100, 200, Gem.AppointmentType.consultation, none⟩
      "a1" 42).updated_at = 42 :=
  c7_created_pending [] ⟨"p1", "d", 100, 200, Gem.AppointmentType.consultation, none⟩
    "a1" 42
    [Gem.newAppointment ⟨"p1", "d", 100, 200, Gem.AppointmentType.consultation, none⟩
      "a1" 42]
    (Gem.newAppointment ⟨"p1", "d", 100, 200, Gem.AppointmentType.consultation, none⟩
      "a1" 42) (by decide)

/-- C8 (amended): no validation relates `start_time` and `end_time`
anywhere — the `AppointmentCreate` model accepts inverted or zero-length
intervals and `create_appointment` admits them, creating an appointment
that carries the inverted interval. -/
theorem c8_no_interval_validation (pid did : String) (s e : Nat)
    (ty : Gem.AppointmentType) (nts : Option String) (newId : String) (now : Nat)
    (_hinv : e ≤ s) :
    ∃ t2 b, Gem.create_appointment [] ⟨pid, did, s, e, ty, nts⟩ newId now
        = Except.ok (t2, b) ∧ b.start_time = s ∧ b.end_time = e := by
  unfold Gem.create_appointment Gem.hasConflict Gem.queryWindow Gem.putNew
  exact ⟨_, _, rfl, rfl, rfl⟩

/-- C8 witness: the inverted request start 200, end 100 is admitted. -/
theorem c8_no_interval_validation_witness :
    ∃ t2 b, Gem.create_appointment []
        ⟨"p1", "d", 200, 100, Gem.AppointmentType.consultation, none⟩ "a1" 7
        = Except.ok (t2, b) ∧ b.start_time = 200 ∧ b.end_time = 100 :=
  c8_no_interval_validation "p1" "d" 200 100 Gem.AppointmentType.consultation none
    "a1" 7 (by decide)

/-- C8 counterexample: a request with start 200 strictly greater than end
100 is accepted end-to-end — the claim says it must fail with
`InvalidInterval` and that no appointment with start at or past end is ever
created. -/
theorem c8_inverted_interval_admitted :
    100 ≤ 200 ∧
    Gem.create_appointment []
      ⟨"p1", "d", 200, 100, Gem.AppointmentType.consultation, none⟩ "a1" 7
      = Except.ok
          ([⟨"a1", "p1", "d", 200, 100, Gem.AppointmentType.consultation,
            Gem.AppointmentStatus.pending, none, 7, 7⟩],
           ⟨"a1", "p1", "d", 200, 100, Gem.AppointmentType.consultation,
            Gem.AppointmentStatus.pending, none, 7, 7⟩) := by
  decide

theorem parseStatus_statusValue (s : Gem.AppointmentStatus) :
    Gem.parseStatus (Gem.statusValue s) = some s := by
  cases s <;> decide

theorem parseType_typeValue (ty : Gem.AppointmentType) :
    Gem.parseType (Gem.typeValue ty) = some ty := by
  cases ty <;> decide

/-- C9 (confirmed): serializing an appointment to its DynamoDB item, then
deserializing it back through
`_dynamodb_item_to_appointment_response`, succeeds and is the identity on
the interval (`start_time`, `end_time`), the status, and the identifiers
(`appointment_id`, `patient_id`, `doctor_id`). -/
theorem c9_roundtrip_identity (a : Gem.AppointmentResponse) :
    ∃ b, Gem.itemToResponse (Gem.itemOfResponse a) = some b ∧
      b.appointment_id = a.appointment_id ∧ b.patient_id = a.patient_id ∧
      b.doctor_id = a.doctor_id ∧ b.start_time = a.start_time ∧
      b.end_time = a.end_time ∧ b.status = a.status := by
  unfold Gem.itemToResponse Gem.itemOfResponse
  simp [fromisoformat_isoformat, parseStatus_statusValue, parseType_typeValue]

/-- C10 (confirmed): the GCP `update_appointment` handler never changes the
appointment's `patient_id`, `doctor_id` or `appointment_time` (the
`AppointmentUpdate` payload cannot even name them); a successful update
rewrites only the `status` and `reason_for_visit` fields that the payload
sets, plus `updated_at`. -/
theorem c10_update_frame (db : List (String × GCP.Appointment)) (apptId : String)
    (u : GCP.AppointmentUpdate) (now : Nat) (a : GCP.Appointment)
    (h : db.lookup apptId = some a) :
    ∃ db2 b, GCP.update_appointment db apptId u now = Except.ok (db2, b) ∧
      b.patient_id = a.patient_id ∧ b.doctor_id = a.doctor_id ∧
      b.appointment_time = a.appointment_time ∧ b.id = a.id ∧
      b.created_at = a.created_at ∧
      b.status = u.status.getD a.status ∧
      b.reason_for_visit = u.reason_for_visit.getD a.reason_for_visit ∧
      b.updated_at = now := by
  unfold GCP.update_appointment GCP.applyUpdate
  rw [h]
  obtain ⟨us, ur⟩ := u
  cases us <;> cases ur <;>
    exact ⟨_, _, rfl, rfl, rfl, rfl, rfl, rfl, rfl, rfl, rfl⟩

/-- C10 witness: updating only the status of a stored appointment keeps the
patient, the doctor and the time intact. -/
theorem c10_update_frame_witness :
    ∃ db2 b, GCP.update_appointment
        [("a0", ⟨"a0", "p0", "d", 950, "routine checkup", "scheduled", 0, 0⟩)]
        "a0" ⟨some "completed", none⟩ 9 = Except.ok (db2, b) ∧
      b.patient_id = "p0" ∧ b.doctor_id = "d" ∧ b.appointment_time = 950 ∧
      b.id = "a0" ∧ b.created_at = 0 ∧
      b.status = (some "completed").getD "scheduled" ∧
      b.reason_for_visit = (Option.none).getD "routine checkup" ∧
      b.updated_at = 9 :=
  c10_update_frame
    [("a0", ⟨"a0", "p0", "d", 950, "routine checkup", "scheduled", 0, 0⟩)]
    "a0" ⟨some "completed", none⟩ 9
    ⟨"a0", "p0", "d", 950, "routine checkup", "scheduled", 0, 0⟩ (by decide)

theorem create_self_conflict (r : Gem.AppointmentCreate) (newId newId2 : String)
    (now now2 : Nat) (h : r.start_time < r.end_time) :
    Gem.create_appointment [Gem.newAppointment r newId now] r newId2 now2
      = Except.error Gem.BookingError.conflict409 := by
  rw [create_eq_conflict_iff, hasConflict_iff]
  refine ⟨Gem.newAppointment r newId now, List.mem_singleton.mpr rfl, ?_⟩
  unfold Gem.newAppointment Gem.oneDay
  refine ⟨rfl, by simp, by simp, ?_⟩
  simp only []
  omega

theorem processSerial_all_reject (r : Gem.AppointmentCreate) (newId newId2 : String)
    (now now2 : Nat) (m : Nat) (h : r.start_time < r.end_time) :
    Gem.processSerial [Gem.newAppointment r newId now] (List.replicate m r) newId2 now2
      = ([Gem.newAppointment r newId now], 0, m) := by
  induction m with
  | zero => rfl
  | succ k ih =>
    rw [List.replicate_succ]
    unfold Gem.processSerial
    rw [create_self_conflict r newId newId2 now now2 h, ih]

/-- C1 (amended): when the N identical, fully-overlapping booking requests
for the same doctor are processed serially — each request's
check-then-insert completing before the next begins — exactly 1 request is
admitted and the other N-1 are rejected with the 409 conflict, for every N
and every valid interval; the code itself takes no per-provider lock, so
this holds only for serialized executions (see the counterexample for an
interleaved one). -/
theorem c1_serialized_exactly_one_success (r : Gem.AppointmentCreate) (n : Nat)
    (newId : String) (now : Nat) (h : r.start_time < r.end_time) :
    (Gem.processSerial [] (List.replicate (n + 1) r) newId now).2.1 = 1 ∧
    (Gem.processSerial [] (List.replicate (n + 1) r) newId now).2.2 = n := by
  have hcr : Gem.create_appointment [] r newId now
      = Except.ok ([Gem.newAppointment r newId now], Gem.newAppointment r newId now) :=
    rfl
  simp only [List.replicate_succ, Gem.processSerial, hcr,
    processSerial_all_reject r newId newId now now n h]
  exact ⟨trivial, trivial⟩

/-- C1 witness: three identical serialized requests on the interval
100..200 produce exactly one admission and two rejections. -/
theorem c1_serialized_exactly_one_success_witness :
    (Gem.processSerial [] (List.replicate 3
      ⟨"p1", "d", 100, 200, Gem.AppointmentType.consultation, none⟩) "a1" 0).2.1 = 1 ∧
    (Gem.processSerial [] (List.replicate 3
      ⟨"p1", "d", 100, 200, Gem.AppointmentType.consultation, none⟩) "a1" 0).2.2 = 2 :=
  c1_serialized_exactly_one_success
    ⟨"p1", "d", 100, 200, Gem.AppointmentType.consultation, none⟩ 2 "a1" 0 (by decide)

/-- C1 counterexample: the unsynchronized check-then-insert admits both of
two concurrent identical requests when their conflict checks both run
before either insert — the schedule check1, check2, insert1, insert2 leaves
two blocking appointments of doctor `d` overlapping at instant 150, so with
capacity 1 the claim's "exactly 1 success and N-1 `SlotFull` rejections,
regardless of arrival order" fails on the code. -/
theorem c1_interleaved_double_booking :
    Gem.hasConflict [] ⟨"p1", "d", 100, 200, Gem.AppointmentType.consultation, none⟩
      = false ∧
    Gem.hasConflict [] ⟨"p2", "d", 100, 200, Gem.AppointmentType.consultation, none⟩
      = false ∧
    Gem.putNew [] ⟨"p1", "d", 100, 200, Gem.AppointmentType.consultation, none⟩ "a1" 0
      = Except.ok
          ([⟨"a1", "p1", "d", 100, 200, Gem.AppointmentType.consultation,
            Gem.AppointmentStatus.pending, none, 0, 0⟩],
           ⟨"a1", "p1", "d", 100, 200, Gem.AppointmentType.consultation,
            Gem.AppointmentStatus.pending, none, 0, 0⟩) ∧
    Gem.putNew
      [⟨"a1", "p1", "d", 100, 200, Gem.AppointmentType.consultation,
        Gem.AppointmentStatus.pending, none, 0, 0⟩]
      ⟨"p2", "d", 100, 200, Gem.AppointmentType.consultation, none⟩ "a2" 0
      = Except.ok
          ([⟨"a1", "p1", "d", 100, 200, Gem.AppointmentType.consultation,
            Gem.AppointmentStatus.pending, none, 0, 0⟩,
            ⟨"a2", "p2", "d", 100, 200, Gem.AppointmentType.consultation,
            Gem.AppointmentStatus.pending, none, 0, 0⟩],
           ⟨"a2", "p2", "d", 100, 200, Gem.AppointmentType.consultation,
            Gem.AppointmentStatus.pending, none, 0, 0⟩) ∧
    Gem.activeOverlapCount
      [⟨"a1", "p1", "d", 100, 200, Gem.AppointmentType.consultation,
        Gem.AppointmentStatus.pending, none, 0, 0⟩,
       ⟨"a2", "p2", "d", 100, 200, Gem.AppointmentType.consultation,
        Gem.AppointmentStatus.pending, none, 0, 0⟩] "d" 150 = 2 := by
  decide
